import Mathlib

/-!
Verification of the `mcp-graphql-introspection` server core:
a shallow embedding of its schema model and rendering functions
(`formatType`, `formatField`, the four tool handlers and the
`makeGraphQLRequest` helper), with theorems settling the stated
properties of the specification.

JavaScript-specific evaluation details (string truthiness, `||`
defaulting, `Array.prototype.join`) are modelled by small explicit
helpers so that each definition can be diffed line by line against
the TypeScript source.
-/

namespace GraphQLIntrospection

/-- JS truthiness of an optional string value: `undefined`/missing and
the empty string are falsy, every other string is truthy. -/
def jsTruthyStr : Option String → Bool
  | none => false
  | some s => s != ""

/-- The JS idiom `o || dflt` on an optional string: yields `dflt` when
`o` is absent or empty (falsy), otherwise the string itself. -/
def jsOrStr : Option String → String → String
  | some s, dflt => if s = "" then dflt else s
  | none, dflt => dflt

/-- JS template-literal interpolation of an optional string:
`undefined` prints as the text "undefined". -/
def tsInterp : Option String → String
  | some s => s
  | none => "undefined"

/-- The JS idiom `o ? pre + o : ''`: a prefixed line or suffix that is
produced only when the optional string is truthy (present and
non-empty). -/
def truthySuffix (pre : String) : Option String → String
  | some d => if d = "" then "" else pre ++ d
  | none => ""

/-- Model of JavaScript `Array.prototype.join(sep)`. -/
def joinWith (sep : String) : List String → String
  | [] => ""
  | [x] => x
  | x :: y :: xs => x ++ sep ++ joinWith sep (y :: xs)

/-- Embeds the `GraphQLEnumValue` interface of the source. -/
structure GraphQLEnumValue where
  name : String
  description : Option String
  isDeprecated : Bool
  deprecationReason : Option String

mutual

/-- Embeds the `GraphQLType` interface of the source: one shape serves
both as a named type definition and as a (possibly wrapped) type
reference, exactly as in the TypeScript. -/
inductive GraphQLType where
  | mk (kind : String) (name : Option String) (description : Option String)
       (fields : Option (List GraphQLField))
       (inputFields : Option (List GraphQLInputValue))
       (interfaces : Option (List GraphQLType))
       (enumValues : Option (List GraphQLEnumValue))
       (possibleTypes : Option (List GraphQLType))
       (ofType : Option GraphQLType)

/-- Embeds the `GraphQLField` interface of the source. -/
inductive GraphQLField where
  | mk (name : String) (description : Option String)
       (args : List GraphQLInputValue) (type : GraphQLType)
       (isDeprecated : Bool) (deprecationReason : Option String)

/-- Embeds the `GraphQLInputValue` interface of the source. -/
inductive GraphQLInputValue where
  | mk (name : String) (description : Option String)
       (type : GraphQLType) (defaultValue : Option String)

end

def GraphQLType.kind : GraphQLType → String
  | .mk k _ _ _ _ _ _ _ _ => k

def GraphQLType.name : GraphQLType → Option String
  | .mk _ n _ _ _ _ _ _ _ => n

def GraphQLType.description : GraphQLType → Option String
  | .mk _ _ d _ _ _ _ _ _ => d

def GraphQLType.fields : GraphQLType → Option (List GraphQLField)
  | .mk _ _ _ f _ _ _ _ _ => f

def GraphQLType.inputFields : GraphQLType → Option (List GraphQLInputValue)
  | .mk _ _ _ _ i _ _ _ _ => i

def GraphQLType.enumValues : GraphQLType → Option (List GraphQLEnumValue)
  | .mk _ _ _ _ _ _ e _ _ => e

def GraphQLType.ofType : GraphQLType → Option GraphQLType
  | .mk _ _ _ _ _ _ _ _ o => o

def GraphQLField.name : GraphQLField → String
  | .mk n _ _ _ _ _ => n

def GraphQLField.description : GraphQLField → Option String
  | .mk _ d _ _ _ _ => d

def GraphQLField.args : GraphQLField → List GraphQLInputValue
  | .mk _ _ a _ _ _ => a

def GraphQLField.type : GraphQLField → GraphQLType
  | .mk _ _ _ t _ _ => t

def GraphQLField.isDeprecated : GraphQLField → Bool
  | .mk _ _ _ _ i _ => i

def GraphQLField.deprecationReason : GraphQLField → Option String
  | .mk _ _ _ _ _ r => r

def GraphQLInputValue.name : GraphQLInputValue → String
  | .mk n _ _ _ => n

def GraphQLInputValue.description : GraphQLInputValue → Option String
  | .mk _ d _ _ => d

def GraphQLInputValue.type : GraphQLInputValue → GraphQLType
  | .mk _ _ t _ => t

/-- Embeds `formatType` of the source: unwraps `NON_NULL`/`LIST`
wrappers recursively, otherwise falls back to the JS idiom
`name || "Unknown"`. -/
def formatType : GraphQLType → String
  | .mk kind name _ _ _ _ _ _ (some inner) =>
    if kind = "NON_NULL" then formatType inner ++ "!"
    else if kind = "LIST" then "[" ++ formatType inner ++ "]"
    else jsOrStr name "Unknown"
  | .mk _ name _ _ _ _ _ _ none => jsOrStr name "Unknown"

/-- The argument group of `formatField`: a parenthesised comma-joined
list when `args.length > 0`, otherwise the empty string. -/
def fieldArgsPart (field : GraphQLField) : String :=
  if field.args.length > 0 then
    "(" ++ joinWith ", " (field.args.map (fun arg => arg.name ++ ": " ++ formatType arg.type)) ++ ")"
  else ""

/-- The line list built by `formatField` before joining: signature
line, optional description line, optional deprecation line, with falsy
(empty) entries removed by `.filter(Boolean)`. -/
def fieldLines (field : GraphQLField) : List String :=
  ([field.name ++ fieldArgsPart field ++ ": " ++ formatType field.type,
    truthySuffix "  Description: " field.description,
    if field.isDeprecated then
      "  DEPRECATED: " ++ jsOrStr field.deprecationReason "No reason given"
    else ""]).filter (fun s => s != "")

/-- Embeds `formatField` of the source. -/
def formatField (field : GraphQLField) : String :=
  joinWith "\n" (fieldLines field)

/-- A root-type name reference, e.g. `queryType: { name: string }`. -/
structure NameRef where
  name : String

/-- Embeds the `GraphQLSchema` interface of the source. Directives are
typed `any[]` in the source and only their count is used, so the
element type is immaterial. -/
structure GraphQLSchema where
  queryType : Option NameRef
  mutationType : Option NameRef
  subscriptionType : Option NameRef
  types : List GraphQLType
  directives : List Unit

/-- Embeds the `IntrospectionResponse` interface of the source. -/
structure IntrospectionResponse where
  __schema : GraphQLSchema

/-- The `response` carried by a thrown transport error, holding the
HTTP status the source reads via `error.response.status`. -/
structure ErrorResponse where
  status : Nat

/-- A thrown error as observed by the `catch` block of
`makeGraphQLRequest`: it may carry an HTTP response and a message. -/
structure CaughtError where
  response : Option ErrorResponse
  message : Option String

/-- The `{ data, error }` pair returned by `makeGraphQLRequest`. -/
structure RequestResult (T : Type) where
  data : Option T
  error : Option String

/-- The outcome of the underlying `client.request` call: either it
resolves with a value or it throws. -/
inductive FetchOutcome (T : Type) where
  | success (result : T)
  | thrown (err : CaughtError)

/-- The `catch` block of `makeGraphQLRequest`: classifies a thrown
error into a message, by HTTP status when a response is attached,
otherwise by the error message with an "Unknown error occurred"
fallback. -/
def classifyError (err : CaughtError) : String :=
  match err.response with
  | some response =>
    if response.status = 500 then
      "GraphQL server error (500). The endpoint may not support introspection or there\x27s a server issue."
    else if response.status = 403 then
      "GraphQL introspection is disabled on this endpoint (403 Forbidden)."
    else if response.status = 404 then
      "GraphQL endpoint not found (404). Please check the URL."
    else
      "GraphQL request failed with status " ++ toString response.status
  | none => jsOrStr err.message "Unknown error occurred"

/-- Embeds `makeGraphQLRequest` of the source as a function of the
transport outcome: on success `{ data: result, error: null }`, on a
thrown error `{ data: null, error: classified message }`. -/
def makeGraphQLRequest (T : Type) : FetchOutcome T → RequestResult T
  | .success result => ⟨some result, none⟩
  | .thrown err => ⟨none, some (classifyError err)⟩

/-- Embeds the `introspect_schema` tool handler. The two-discriminant
match mirrors the guard `if (error || !introspectionData)` of the
source: the success branch requires data present and error falsy. -/
def introspect_schema (graphqlApi : String) (outcome : FetchOutcome IntrospectionResponse) : String :=
  let req := makeGraphQLRequest IntrospectionResponse outcome
  match req.data, jsTruthyStr req.error with
  | some introspectionData, false =>
    joinWith "\n"
      ["GraphQL Schema for " ++ graphqlApi,
       "Query Type: " ++ jsOrStr (introspectionData.__schema.queryType.map NameRef.name) "None",
       "Mutation Type: " ++ jsOrStr (introspectionData.__schema.mutationType.map NameRef.name) "None",
       "Subscription Type: " ++ jsOrStr (introspectionData.__schema.subscriptionType.map NameRef.name) "None",
       "Total Types: " ++ toString introspectionData.__schema.types.length,
       "Directives: " ++ toString introspectionData.__schema.directives.length]
  | _, _ => jsOrStr req.error "Failed to retrieve schema information"

/-- Embeds the `get_graphql_gql_queries` tool handler. The root type
is found by `type.name === schema.queryType?.name` (an `Option`
equality, as in JS where `undefined === undefined` holds), and the
message is produced when no type matches or the matched type has no
`fields` collection (`!queryType.fields`; note a present empty array
is truthy in JS). -/
def get_graphql_gql_queries (outcome : FetchOutcome IntrospectionResponse) : String :=
  let req := makeGraphQLRequest IntrospectionResponse outcome
  match req.data, jsTruthyStr req.error with
  | some introspectionData, false =>
    match introspectionData.__schema.types.find?
        (fun t => t.name == introspectionData.__schema.queryType.map NameRef.name) with
    | some queryType =>
      match queryType.fields with
      | some fields =>
        "Available Queries:\n\n" ++ joinWith "\n\n" (fields.map formatField)
      | none => "No query type found in schema"
    | none => "No query type found in schema"
  | _, _ => jsOrStr req.error "Failed to retrieve schema information"

/-- Embeds the `get_graphql_gql_mutations` tool handler, identical to
the query handler but keyed on `mutationType`. -/
def get_graphql_gql_mutations (outcome : FetchOutcome IntrospectionResponse) : String :=
  let req := makeGraphQLRequest IntrospectionResponse outcome
  match req.data, jsTruthyStr req.error with
  | some introspectionData, false =>
    match introspectionData.__schema.types.find?
        (fun t => t.name == introspectionData.__schema.mutationType.map NameRef.name) with
    | some mutationType =>
      match mutationType.fields with
      | some fields =>
        "Available Mutations:\n\n" ++ joinWith "\n\n" (fields.map formatField)
      | none => "No mutation type found in schema"
    | none => "No mutation type found in schema"
  | _, _ => jsOrStr req.error "Failed to retrieve schema information"

/-- The `for (const typeName of typeNames)` loop of the type-details
handler: partitions the requested names into resolved types and
not-found names, both in input order. -/
def partitionTypes (types : List GraphQLType) : List String → List GraphQLType × List String
  | [] => ([], [])
  | typeName :: rest =>
    let acc := partitionTypes types rest
    match types.find? (fun t => t.name == some typeName) with
    | some t => (t :: acc.1, acc.2)
    | none => (acc.1, typeName :: acc.2)

/-- The header lines of one type-details block: `Type:`, `Kind:` and a
conditional `Description:` line, with falsy entries removed by
`.filter(Boolean)`. -/
def typeHeaderLines (t : GraphQLType) : List String :=
  (["Type: " ++ tsInterp t.name,
    "Kind: " ++ t.kind,
    truthySuffix "Description: " t.description]).filter (fun s => s != "")

/-- The `if (type.fields)` section of the type-details handler: a
`Fields:` header plus one indented `formatField` line per field,
produced whenever the collection is present (even empty). -/
def fieldsSection (t : GraphQLType) : List String :=
  match t.fields with
  | some fields => "\nFields:" :: fields.map (fun field => "  " ++ formatField field)
  | none => []

/-- The `if (type.enumValues)` section of the type-details handler. -/
def enumValuesSection (t : GraphQLType) : List String :=
  match t.enumValues with
  | some values =>
    "\nEnum Values:" :: values.map (fun value => "  " ++ value.name ++ truthySuffix " - " value.description)
  | none => []

/-- The `if (type.inputFields)` section of the type-details handler. -/
def inputFieldsSection (t : GraphQLType) : List String :=
  match t.inputFields with
  | some inputFields =>
    "\nInput Fields:" :: inputFields.map
      (fun field => "  " ++ field.name ++ ": " ++ formatType field.type ++ truthySuffix " - " field.description)
  | none => []

/-- The `typeDetails` entries pushed for one found type, in source
order: headers, then fields, enum values and input fields sections. -/
def formatTypeDetailsLines (t : GraphQLType) : List String :=
  typeHeaderLines t ++ fieldsSection t ++ enumValuesSection t ++ inputFieldsSection t

/-- One type-details block: the entries joined by newline
(the `typeDetails.join` call with a newline separator). -/
def formatTypeDetails (t : GraphQLType) : String :=
  joinWith "\n" (formatTypeDetailsLines t)

/-- Embeds the `get_graphql_type_details` tool handler. -/
def get_graphql_type_details (outcome : FetchOutcome IntrospectionResponse) (typeNames : List String) : String :=
  let req := makeGraphQLRequest IntrospectionResponse outcome
  match req.data, jsTruthyStr req.error with
  | some introspectionData, false =>
    let parts := partitionTypes introspectionData.__schema.types typeNames
    joinWith "\n\n---\n\n"
      ((if parts.2.length > 0 then
          ["Types not found: " ++ joinWith ", " parts.2]
        else []) ++ parts.1.map formatTypeDetails)
  | _, _ => jsOrStr req.error "Failed to retrieve schema information"

/-! Concrete sample values used by witnesses and counterexamples. -/

/-- A bare scalar reference named `Boolean`. -/
def booleanRef : GraphQLType := .mk "SCALAR" (some "Boolean") none none none none none none none

/-- The field `{name:"ping", args:[], type:{name:"Boolean"}}` of the spec. -/
def pingField : GraphQLField := .mk "ping" none [] booleanRef false none

/-- A bare object reference named `User`. -/
def userRef : GraphQLType := .mk "OBJECT" (some "User") none none none none none none none

/-- Wraps a reference in a `NON_NULL` node. -/
def nonNullOf (t : GraphQLType) : GraphQLType := .mk "NON_NULL" none none none none none none none (some t)

/-- Wraps a reference in a `LIST` node. -/
def listOf (t : GraphQLType) : GraphQLType := .mk "LIST" none none none none none none none (some t)

/-- A deprecated field with no deprecation reason. -/
def deprecatedPingField : GraphQLField := .mk "oldPing" none [] booleanRef true none

/-- An object type named `Query` whose `fields` collection is present
but empty. -/
def emptyFieldsQueryType : GraphQLType := .mk "OBJECT" (some "Query") none (some []) none none none none none

/-- An introspection response whose query and mutation roots both
resolve to `emptyFieldsQueryType`. -/
def emptyFieldsResp : IntrospectionResponse :=
  ⟨⟨some ⟨"Query"⟩, some ⟨"Query"⟩, none, [emptyFieldsQueryType], []⟩⟩

/-- An introspection response with no root types and no types. -/
def emptySchemaResp : IntrospectionResponse := ⟨⟨none, none, none, [], []⟩⟩

/-- A scalar reference whose name is present but the empty string. -/
def emptyNameScalar : GraphQLType := .mk "SCALAR" (some "") none none none none none none none

/-! Helper lemmas. -/

lemma ne_empty_of_length (s : String) (h : s.length ≠ 0) : s ≠ "" :=
  fun e => h (by rw [e]; rfl)

lemma append_ne_empty_left (s t : String) (h : s.length ≠ 0) : s ++ t ≠ "" := by
  apply ne_empty_of_length
  rw [String.length_append]
  omega

/-- The signature line of a field block is never empty: it contains at
least the `": "` separator. -/
lemma sig_line_ne_empty (a c : String) : a ++ ": " ++ c ≠ "" := by
  apply ne_empty_of_length
  rw [String.length_append, String.length_append]
  have h2 : (": " : String).length = 2 := rfl
  omega

/-- Two strings whose character data start differently are different. -/
lemma ne_of_head_ne (s t : String) (h : s.data.head? ≠ t.data.head?) : s ≠ t :=
  fun e => h (by rw [e])

lemma head_data_append (s t : String) (c : Char) (cs : List Char) (h : s.data = c :: cs) :
    (s ++ t).data.head? = some c := by
  rw [String.data_append, h]
  rfl

/-- `joinWith` on a cons is the head, the separator, then the rest,
whenever the rest is non-empty. -/
lemma joinWith_cons (sep x : String) (y : String) (xs : List String) :
    joinWith sep (x :: y :: xs) = x ++ sep ++ joinWith sep (y :: xs) := rfl

/-- The classified error message of a thrown request is never the
empty string. -/
lemma classifyError_ne_empty (err : CaughtError) : classifyError err ≠ "" := by
  rcases err with ⟨resp, msg⟩
  rcases resp with _ | ⟨⟨s⟩⟩
  · show jsOrStr msg "Unknown error occurred" ≠ ""
    rcases msg with _ | m
    · decide
    · show (if m = "" then "Unknown error occurred" else m) ≠ ""
      split
      · decide
      · assumption
  · show (if s = 500 then _ else if s = 403 then _ else if s = 404 then _ else _) ≠ ""
    split
    · decide
    · split
      · decide
      · split
        · decide
        · exact append_ne_empty_left _ _ (by decide)

/-! Reduction lemmas for the handlers at a definite transport outcome. -/

lemma introspect_schema_thrown (api : String) (err : CaughtError) :
    introspect_schema api (.thrown err) = classifyError err := by
  show jsOrStr (some (classifyError err)) "Failed to retrieve schema information" = _
  show (if classifyError err = "" then _ else classifyError err) = _
  rw [if_neg (classifyError_ne_empty err)]

lemma queries_thrown (err : CaughtError) :
    get_graphql_gql_queries (.thrown err) = classifyError err := by
  show jsOrStr (some (classifyError err)) "Failed to retrieve schema information" = _
  show (if classifyError err = "" then _ else classifyError err) = _
  rw [if_neg (classifyError_ne_empty err)]

lemma mutations_thrown (err : CaughtError) :
    get_graphql_gql_mutations (.thrown err) = classifyError err := by
  show jsOrStr (some (classifyError err)) "Failed to retrieve schema information" = _
  show (if classifyError err = "" then _ else classifyError err) = _
  rw [if_neg (classifyError_ne_empty err)]

lemma type_details_thrown (err : CaughtError) (names : List String) :
    get_graphql_type_details (.thrown err) names = classifyError err := by
  show jsOrStr (some (classifyError err)) "Failed to retrieve schema information" = _
  show (if classifyError err = "" then _ else classifyError err) = _
  rw [if_neg (classifyError_ne_empty err)]

lemma queries_success (r : IntrospectionResponse) :
    get_graphql_gql_queries (.success r) =
      match r.__schema.types.find?
          (fun t => t.name == r.__schema.queryType.map NameRef.name) with
      | some queryType =>
        match queryType.fields with
        | some fields => "Available Queries:\n\n" ++ joinWith "\n\n" (fields.map formatField)
        | none => "No query type found in schema"
      | none => "No query type found in schema" := rfl

lemma mutations_success (r : IntrospectionResponse) :
    get_graphql_gql_mutations (.success r) =
      match r.__schema.types.find?
          (fun t => t.name == r.__schema.mutationType.map NameRef.name) with
      | some mutationType =>
        match mutationType.fields with
        | some fields => "Available Mutations:\n\n" ++ joinWith "\n\n" (fields.map formatField)
        | none => "No mutation type found in schema"
      | none => "No mutation type found in schema" := rfl

lemma type_details_success (r : IntrospectionResponse) (typeNames : List String) :
    get_graphql_type_details (.success r) typeNames =
      joinWith "\n\n---\n\n"
        ((if (partitionTypes r.__schema.types typeNames).2.length > 0 then
            ["Types not found: " ++ joinWith ", " (partitionTypes r.__schema.types typeNames).2]
          else []) ++ (partitionTypes r.__schema.types typeNames).1.map formatTypeDetails) := rfl

/-- The handler loop computes the order-stable partition of the
requested names into resolved types (`filterMap` of the lookup) and
unresolved names (`filter` on lookup failure). -/
lemma partitionTypes_eq (types : List GraphQLType) (names : List String) :
    partitionTypes types names =
      (names.filterMap (fun n => types.find? (fun t => t.name == some n)),
       names.filter (fun n => (types.find? (fun t => t.name == some n)).isNone)) := by
  induction names with
  | nil => rfl
  | cons n rest ih =>
    show (match types.find? (fun t => t.name == some n) with
      | some t => (t :: (partitionTypes types rest).1, (partitionTypes types rest).2)
      | none => ((partitionTypes types rest).1, n :: (partitionTypes types rest).2)) = _
    rcases h : types.find? (fun t => t.name == some n) with _ | t <;>
      simp [h, ih, List.filterMap_cons, List.filter_cons]

/-! Claim theorems. -/

/-- C4: `formatType` (named `formatSignature` in the specification) unwraps wrapper
kinds recursively: for a reference with an `ofType`, kind `NON_NULL`
yields the inner signature followed by `!` and kind `LIST` yields the
inner signature wrapped in brackets; the reference
`NON_NULL(LIST(NON_NULL(named "User")))` renders exactly `[User!]!`. -/
theorem formatType_unwraps_wrappers (t inner : GraphQLType) (h : t.ofType = some inner) :
    (t.kind = "NON_NULL" → formatType t = formatType inner ++ "!") ∧
    (t.kind = "LIST" → formatType t = "[" ++ formatType inner ++ "]") ∧
    formatType (nonNullOf (listOf (nonNullOf userRef))) = "[User!]!" := by
  rcases t with ⟨kind, name, d, f, i, itf, e, p, o⟩
  simp only [GraphQLType.ofType] at h
  subst h
  simp only [GraphQLType.kind]
  refine ⟨fun hk => ?_, fun hk => ?_, rfl⟩
  · subst hk
    rfl
  · subst hk
    rfl

theorem formatType_unwraps_wrappers_witness :
    formatType (nonNullOf (listOf (nonNullOf userRef))) =
      formatType (listOf (nonNullOf userRef)) ++ "!" :=
  (formatType_unwraps_wrappers (nonNullOf (listOf (nonNullOf userRef)))
    (listOf (nonNullOf userRef)) rfl).1 rfl

/-- C6 counterexample: a reference with no `ofType` whose name is
present but equal to the empty string renders the literal `Unknown`,
not its name, refuting the claim that the name is returned whenever it
is present. -/
theorem formatType_empty_name_counterexample :
    emptyNameScalar.ofType = none ∧ emptyNameScalar.name = some "" ∧
    formatType emptyNameScalar = "Unknown" ∧ formatType emptyNameScalar ≠ "" :=
  ⟨rfl, rfl, rfl, by decide⟩

/-- C6 (amended): for every reference without an `ofType`, and for
every reference with an `ofType` whose kind is neither `LIST` nor
`NON_NULL`, `formatType` returns `name || "Unknown"` in the JS sense:
the name when present and non-empty, and the literal `Unknown` when
the name is absent or empty; a reference with neither name nor
`ofType` yields `Unknown`, and the function is total, so no input
crashes it. -/
theorem formatType_fallback_amended (t u inner : GraphQLType)
    (h1 : t.ofType = none)
    (h2 : u.ofType = some inner) (h3 : u.kind ≠ "LIST") (h4 : u.kind ≠ "NON_NULL") :
    formatType t = jsOrStr t.name "Unknown" ∧
    formatType u = jsOrStr u.name "Unknown" ∧
    formatType (.mk "SCALAR" none none none none none none none none) = "Unknown" := by
  refine ⟨?_, ?_, rfl⟩
  · rcases t with ⟨kind, name, d, f, i, itf, e, p, o⟩
    simp only [GraphQLType.ofType] at h1
    subst h1
    rfl
  · rcases u with ⟨kind, name, d, f, i, itf, e, p, o⟩
    simp only [GraphQLType.ofType] at h2
    subst h2
    simp only [GraphQLType.kind] at h3 h4
    show (if kind = "NON_NULL" then _ else if kind = "LIST" then _ else jsOrStr name "Unknown") = _
    rw [if_neg h4, if_neg h3]
    rfl

theorem formatType_fallback_witness :
    formatType userRef = jsOrStr userRef.name "Unknown" ∧
    formatType (GraphQLType.mk "SCALAR" none none none none none none none none) = "Unknown" :=
  ⟨(formatType_fallback_amended userRef
      (.mk "WEIRD" (some "W") none none none none none none (some userRef)) userRef
      rfl rfl (by decide) (by decide)).1,
   (formatType_fallback_amended userRef
      (.mk "WEIRD" (some "W") none none none none none none (some userRef)) userRef
      rfl rfl (by decide) (by decide)).2.2⟩

/-- C7: for every field with an empty `args` sequence, `formatField`
omits the argument parenthesis group entirely, so the block starts
with the bare `name: ReturnSig` line; the field
`{name:"ping", args:[], type:{name:"Boolean"}}` renders exactly
`ping: Boolean`. -/
theorem formatField_no_args (f : GraphQLField) (h : f.args = []) :
    fieldArgsPart f = "" ∧
    (∃ rest, fieldLines f = (f.name ++ ": " ++ formatType f.type) :: rest) ∧
    formatField pingField = "ping: Boolean" := by
  have ha : fieldArgsPart f = "" := by
    simp [fieldArgsPart, h]
  refine ⟨ha, ?_, rfl⟩
  simp only [fieldLines, ha, String.append_empty]
  rw [List.filter_cons_of_pos]
  · exact ⟨_, rfl⟩
  · simpa using sig_line_ne_empty f.name (formatType f.type)

theorem formatField_no_args_witness :
    fieldArgsPart pingField = "" ∧ formatField pingField = "ping: Boolean" :=
  ⟨(formatField_no_args pingField rfl).1, (formatField_no_args pingField rfl).2.2⟩

/-- C9: `makeGraphQLRequest` returns exactly one of `data` and `error`
populated: success gives `{data, error: null}` and a thrown failure
gives `{data: null, error: message}` with the message never null; when
the failure carries neither response nor message the message defaults
to `Unknown error occurred`. -/
theorem makeGraphQLRequest_exclusive (T : Type) (o : FetchOutcome T) :
    ((∃ result, o = .success result ∧ makeGraphQLRequest T o = ⟨some result, none⟩) ∨
     (∃ err, o = .thrown err ∧ (makeGraphQLRequest T o).data = none ∧
        ∃ m, (makeGraphQLRequest T o).error = some m)) ∧
    (makeGraphQLRequest T (.thrown ⟨none, none⟩)).error = some "Unknown error occurred" := by
  constructor
  · cases o with
    | success result => exact Or.inl ⟨result, rfl, rfl⟩
    | thrown err => exact Or.inr ⟨err, rfl, rfl, classifyError err, rfl⟩
  · rfl

/-- C10: a type-details request with an empty list of names, on a
successful fetch, returns the empty text block. -/
theorem type_details_empty_request (r : IntrospectionResponse) :
    get_graphql_type_details (.success r) [] = "" := rfl

/-- C5: a transport error with an attached HTTP status makes every
top-level operation return exactly the classified message, with no
schema-derived output: 403 gives the introspection-disabled message,
500 and 404 their specific messages, and any other status the generic
`GraphQL request failed with status {status}` message. -/
theorem transport_error_messages (api : String) (names : List String)
    (err : CaughtError) (s : Nat) (h : err.response = some ⟨s⟩) :
    (s = 403 →
      introspect_schema api (.thrown err) =
        "GraphQL introspection is disabled on this endpoint (403 Forbidden)." ∧
      get_graphql_gql_queries (.thrown err) =
        "GraphQL introspection is disabled on this endpoint (403 Forbidden)." ∧
      get_graphql_gql_mutations (.thrown err) =
        "GraphQL introspection is disabled on this endpoint (403 Forbidden)." ∧
      get_graphql_type_details (.thrown err) names =
        "GraphQL introspection is disabled on this endpoint (403 Forbidden).") ∧
    (s = 500 →
      introspect_schema api (.thrown err) =
        "GraphQL server error (500). The endpoint may not support introspection or there\x27s a server issue." ∧
      get_graphql_gql_queries (.thrown err) =
        "GraphQL server error (500). The endpoint may not support introspection or there\x27s a server issue." ∧
      get_graphql_gql_mutations (.thrown err) =
        "GraphQL server error (500). The endpoint may not support introspection or there\x27s a server issue." ∧
      get_graphql_type_details (.thrown err) names =
        "GraphQL server error (500). The endpoint may not support introspection or there\x27s a server issue.") ∧
    (s = 404 →
      introspect_schema api (.thrown err) =
        "GraphQL endpoint not found (404). Please check the URL." ∧
      get_graphql_gql_queries (.thrown err) =
        "GraphQL endpoint not found (404). Please check the URL." ∧
      get_graphql_gql_mutations (.thrown err) =
        "GraphQL endpoint not found (404). Please check the URL." ∧
      get_graphql_type_details (.thrown err) names =
        "GraphQL endpoint not found (404). Please check the URL.") ∧
    (s ≠ 500 → s ≠ 403 → s ≠ 404 →
      introspect_schema api (.thrown err) =
        "GraphQL request failed with status " ++ toString s ∧
      get_graphql_gql_queries (.thrown err) =
        "GraphQL request failed with status " ++ toString s ∧
      get_graphql_gql_mutations (.thrown err) =
        "GraphQL request failed with status " ++ toString s ∧
      get_graphql_type_details (.thrown err) names =
        "GraphQL request failed with status " ++ toString s) := by
  have hcl : classifyError err =
      (if s = 500 then
        "GraphQL server error (500). The endpoint may not support introspection or there\x27s a server issue."
      else if s = 403 then
        "GraphQL introspection is disabled on this endpoint (403 Forbidden)."
      else if s = 404 then
        "GraphQL endpoint not found (404). Please check the URL."
      else
        "GraphQL request failed with status " ++ toString s) := by
    rcases err with ⟨resp, msg⟩
    replace h : resp = some ⟨s⟩ := h
    subst h
    rfl
  refine ⟨fun hs => ?_, fun hs => ?_, fun hs => ?_, fun n500 n403 n404 => ?_⟩
  · subst hs
    have hm : classifyError err =
        "GraphQL introspection is disabled on this endpoint (403 Forbidden)." := by
      rw [hcl]; rfl
    exact ⟨(introspect_schema_thrown api err).trans hm, (queries_thrown err).trans hm,
      (mutations_thrown err).trans hm, (type_details_thrown err names).trans hm⟩
  · subst hs
    have hm : classifyError err =
        "GraphQL server error (500). The endpoint may not support introspection or there\x27s a server issue." := by
      rw [hcl]; rfl
    exact ⟨(introspect_schema_thrown api err).trans hm, (queries_thrown err).trans hm,
      (mutations_thrown err).trans hm, (type_details_thrown err names).trans hm⟩
  · subst hs
    have hm : classifyError err =
        "GraphQL endpoint not found (404). Please check the URL." := by
      rw [hcl]; rfl
    exact ⟨(introspect_schema_thrown api err).trans hm, (queries_thrown err).trans hm,
      (mutations_thrown err).trans hm, (type_details_thrown err names).trans hm⟩
  · have hm : classifyError err = "GraphQL request failed with status " ++ toString s := by
      rw [hcl, if_neg n500, if_neg n403, if_neg n404]
    exact ⟨(introspect_schema_thrown api err).trans hm, (queries_thrown err).trans hm,
      (mutations_thrown err).trans hm, (type_details_thrown err names).trans hm⟩

theorem transport_error_messages_witness :
    introspect_schema "endpoint" (.thrown ⟨some ⟨403⟩, none⟩) =
      "GraphQL introspection is disabled on this endpoint (403 Forbidden)." :=
  ((transport_error_messages "endpoint" [] ⟨some ⟨403⟩, none⟩ 403 rfl).1 rfl).1

/-- The first entry of the `formatField` line list always survives the
`.filter(Boolean)` step, since the signature line is never empty. -/
lemma fieldLines_eq (x : GraphQLField) :
    fieldLines x = (x.name ++ fieldArgsPart x ++ ": " ++ formatType x.type) ::
      List.filter (fun s => s != "")
        [truthySuffix "  Description: " x.description,
         if x.isDeprecated then
           "  DEPRECATED: " ++ jsOrStr x.deprecationReason "No reason given"
         else ""] := by
  simp only [fieldLines]
  rw [List.filter_cons_of_pos]
  simpa using sig_line_ne_empty (x.name ++ fieldArgsPart x) (formatType x.type)

lemma joinWith_two_ends (a c : String) : ∃ p, joinWith "\n" [a, c] = p ++ ("\n" ++ c) :=
  ⟨a, String.append_assoc a "\n" c⟩

lemma joinWith_three_ends (a b c : String) : ∃ p, joinWith "\n" [a, b, c] = p ++ ("\n" ++ c) := by
  refine ⟨a ++ "\n" ++ b, ?_⟩
  show a ++ "\n" ++ (b ++ "\n" ++ c) = a ++ "\n" ++ b ++ ("\n" ++ c)
  apply String.ext
  simp [String.data_append, List.append_assoc]

/-- C8: for every deprecated field without a `deprecationReason`, the
`formatField` block ends with the line `  DEPRECATED: No reason given`;
the optional lines are dropped entirely when their condition fails (no
blank line ever stands in their place), so a field with no description
and not deprecated renders as its signature line alone. -/
theorem formatField_deprecated_fallback (f g : GraphQLField)
    (h1 : f.isDeprecated = true) (h2 : f.deprecationReason = none)
    (h3 : g.description = none) (h4 : g.isDeprecated = false) :
    (∃ p, formatField f = p ++ "\n  DEPRECATED: No reason given") ∧
    (∀ l ∈ fieldLines f, l ≠ "") ∧
    (∀ l ∈ fieldLines g, l ≠ "") ∧
    formatField g = g.name ++ fieldArgsPart g ++ ": " ++ formatType g.type := by
  have hgen : ∀ (x : GraphQLField), ∀ l ∈ fieldLines x, l ≠ "" := by
    intro x l hl
    simp only [fieldLines, List.mem_filter] at hl
    simpa using hl.2
  refine ⟨?_, hgen f, hgen g, ?_⟩
  · rcases f with ⟨nm, desc, args, ty, dep, reason⟩
    replace h1 : dep = true := h1
    replace h2 : reason = none := h2
    subst h1
    subst h2
    show ∃ p, joinWith "\n" (fieldLines ⟨nm, desc, args, ty, true, none⟩) =
      p ++ "\n  DEPRECATED: No reason given"
    rw [fieldLines_eq]
    by_cases hB : truthySuffix "  Description: "
        (GraphQLField.description ⟨nm, desc, args, ty, true, none⟩) = ""
    · rw [hB, List.filter_cons_of_neg]
      · exact joinWith_two_ends _ _
      · decide
    · rw [List.filter_cons_of_pos]
      · exact joinWith_three_ends _ _ _
      · simpa using hB
  · rcases g with ⟨nm, desc, args, ty, dep, reason⟩
    replace h3 : desc = none := h3
    replace h4 : dep = false := h4
    subst h3
    subst h4
    show joinWith "\n" (fieldLines ⟨nm, none, args, ty, false, reason⟩) = _
    rw [fieldLines_eq]
    rfl

theorem formatField_deprecated_fallback_witness :
    (∃ p, formatField deprecatedPingField = p ++ "\n  DEPRECATED: No reason given") ∧
    formatField pingField = pingField.name ++ fieldArgsPart pingField ++ ": " ++
      formatType pingField.type :=
  ⟨(formatField_deprecated_fallback deprecatedPingField pingField rfl rfl rfl rfl).1,
   (formatField_deprecated_fallback deprecatedPingField pingField rfl rfl rfl rfl).2.2.2⟩

/-- C1 counterexample: against a schema whose `queryType` name
resolves to a type with a present but empty `fields` array (zero
fields), the query-list operation returns the header with an empty
body, not the `No query type found in schema` message — a JS empty
array is truthy, so `!queryType.fields` does not fire. -/
theorem queries_empty_fields_counterexample :
    emptyFieldsQueryType.fields = some [] ∧
    emptyFieldsResp.__schema.types.find?
      (fun t => t.name == emptyFieldsResp.__schema.queryType.map NameRef.name) =
      some emptyFieldsQueryType ∧
    get_graphql_gql_queries (.success emptyFieldsResp) = "Available Queries:\n\n" ∧
    get_graphql_gql_queries (.success emptyFieldsResp) ≠ "No query type found in schema" :=
  ⟨rfl, rfl, rfl, by decide⟩

/-- C1 (amended): the query-list operation returns exactly
`No query type found in schema` when no schema type matches the query
root name or when the `fields` collection of the matched root type is
absent (a present but empty collection does not trigger the message);
the mutation-list operation behaves identically keyed on the mutation
root with message `No mutation type found in schema`. -/
theorem root_type_absent_message_amended (r s : IntrospectionResponse)
    (hq : r.__schema.types.find?
            (fun t => t.name == r.__schema.queryType.map NameRef.name) = none ∨
          ∃ t, r.__schema.types.find?
            (fun t => t.name == r.__schema.queryType.map NameRef.name) = some t ∧
            t.fields = none)
    (hm : s.__schema.types.find?
            (fun t => t.name == s.__schema.mutationType.map NameRef.name) = none ∨
          ∃ t, s.__schema.types.find?
            (fun t => t.name == s.__schema.mutationType.map NameRef.name) = some t ∧
            t.fields = none) :
    get_graphql_gql_queries (.success r) = "No query type found in schema" ∧
    get_graphql_gql_mutations (.success s) = "No mutation type found in schema" := by
  constructor
  · rw [queries_success]
    rcases hq with h | ⟨t, ht, hf⟩
    · simp only [h]
    · simp only [ht, hf]
  · rw [mutations_success]
    rcases hm with h | ⟨t, ht, hf⟩
    · simp only [h]
    · simp only [ht, hf]

theorem root_type_absent_message_witness :
    get_graphql_gql_queries (.success emptySchemaResp) = "No query type found in schema" ∧
    get_graphql_gql_mutations (.success emptySchemaResp) = "No mutation type found in schema" :=
  root_type_absent_message_amended emptySchemaResp emptySchemaResp (Or.inl rfl) (Or.inl rfl)

lemma head_of_indent (a : String) : ("  " ++ a).data.head? = some ' ' :=
  head_data_append _ _ ' ' [' '] rfl

lemma enumItem_head (v : GraphQLEnumValue) :
    ("  " ++ v.name ++ truthySuffix " - " v.description).data.head? = some ' ' := by
  simp only [String.append_assoc]
  exact head_of_indent _

lemma inputItem_head (x : GraphQLInputValue) :
    ("  " ++ x.name ++ ": " ++ formatType x.type ++
      truthySuffix " - " x.description).data.head? = some ' ' := by
  simp only [String.append_assoc]
  exact head_of_indent _

/-- Every header line of a type-details block starts with `T`, `K` or
`D`, so no section marker (which starts with a newline) is among them. -/
lemma mem_typeHeaderLines_head (t : GraphQLType) (l : String) (h : l ∈ typeHeaderLines t) :
    l.data.head? = some 'T' ∨ l.data.head? = some 'K' ∨ l.data.head? = some 'D' := by
  simp only [typeHeaderLines, List.mem_filter, List.mem_cons, List.not_mem_nil, or_false] at h
  obtain ⟨hmem, hne⟩ := h
  rcases hmem with rfl | rfl | rfl
  · exact Or.inl (head_data_append _ _ 'T' ("ype: " : String).data rfl)
  · exact Or.inr (Or.inl (head_data_append _ _ 'K' ("ind: " : String).data rfl))
  · refine Or.inr (Or.inr ?_)
    rcases hdesc : t.description with _ | d
    · rw [hdesc] at hne
      exact absurd hne (by decide)
    · rw [hdesc] at hne
      by_cases hdd : d = ""
      · subst hdd
        exact absurd hne (by decide)
      · show ((if d = "" then "" else "Description: " ++ d)).data.head? = some 'D'
        rw [if_neg hdd]
        exact head_data_append _ _ 'D' ("escription: " : String).data rfl

lemma mem_fieldsSection (t : GraphQLType) (l : String) (h : l ∈ fieldsSection t) :
    l = "\nFields:" ∨ l.data.head? = some ' ' := by
  rcases hf : t.fields with _ | fs
  · simp [fieldsSection, hf] at h
  · simp only [fieldsSection, hf, List.mem_cons] at h
    rcases h with rfl | h
    · exact Or.inl rfl
    · rcases List.mem_map.mp h with ⟨x, -, rfl⟩
      exact Or.inr (head_of_indent _)

lemma mem_enumValuesSection (t : GraphQLType) (l : String) (h : l ∈ enumValuesSection t) :
    l = "\nEnum Values:" ∨ l.data.head? = some ' ' := by
  rcases he : t.enumValues with _ | vs
  · simp [enumValuesSection, he] at h
  · simp only [enumValuesSection, he, List.mem_cons] at h
    rcases h with rfl | h
    · exact Or.inl rfl
    · rcases List.mem_map.mp h with ⟨x, -, rfl⟩
      exact Or.inr (enumItem_head x)

lemma mem_inputFieldsSection (t : GraphQLType) (l : String) (h : l ∈ inputFieldsSection t) :
    l = "\nInput Fields:" ∨ l.data.head? = some ' ' := by
  rcases hi : t.inputFields with _ | xs
  · simp [inputFieldsSection, hi] at h
  · simp only [inputFieldsSection, hi, List.mem_cons] at h
    rcases h with rfl | h
    · exact Or.inl rfl
    · rcases List.mem_map.mp h with ⟨x, -, rfl⟩
      exact Or.inr (inputItem_head x)

lemma fields_header_mem (t : GraphQLType) :
    "\nFields:" ∈ formatTypeDetailsLines t ↔ t.fields.isSome = true := by
  constructor
  · intro h
    simp only [formatTypeDetailsLines, List.mem_append] at h
    rcases h with ((h | h) | h) | h
    · rcases mem_typeHeaderLines_head t _ h with h' | h' | h' <;> exact absurd h' (by decide)
    · rcases hf : t.fields with _ | fs
      · simp [fieldsSection, hf] at h
      · simp [hf]
    · rcases mem_enumValuesSection t _ h with h' | h'
      · exact absurd h' (by decide)
      · exact absurd h' (by decide)
    · rcases mem_inputFieldsSection t _ h with h' | h'
      · exact absurd h' (by decide)
      · exact absurd h' (by decide)
  · intro h
    rcases hf : t.fields with _ | fs
    · rw [hf] at h
      exact absurd h (by decide)
    · simp only [formatTypeDetailsLines, List.mem_append]
      exact Or.inl (Or.inl (Or.inr (by simp [fieldsSection, hf])))

lemma enum_header_mem (t : GraphQLType) :
    "\nEnum Values:" ∈ formatTypeDetailsLines t ↔ t.enumValues.isSome = true := by
  constructor
  · intro h
    simp only [formatTypeDetailsLines, List.mem_append] at h
    rcases h with ((h | h) | h) | h
    · rcases mem_typeHeaderLines_head t _ h with h' | h' | h' <;> exact absurd h' (by decide)
    · rcases mem_fieldsSection t _ h with h' | h'
      · exact absurd h' (by decide)
      · exact absurd h' (by decide)
    · rcases he : t.enumValues with _ | vs
      · simp [enumValuesSection, he] at h
      · simp [he]
    · rcases mem_inputFieldsSection t _ h with h' | h'
      · exact absurd h' (by decide)
      · exact absurd h' (by decide)
  · intro h
    rcases he : t.enumValues with _ | vs
    · rw [he] at h
      exact absurd h (by decide)
    · simp only [formatTypeDetailsLines, List.mem_append]
      exact Or.inl (Or.inr (by simp [enumValuesSection, he]))

lemma input_header_mem (t : GraphQLType) :
    "\nInput Fields:" ∈ formatTypeDetailsLines t ↔ t.inputFields.isSome = true := by
  constructor
  · intro h
    simp only [formatTypeDetailsLines, List.mem_append] at h
    rcases h with ((h | h) | h) | h
    · rcases mem_typeHeaderLines_head t _ h with h' | h' | h' <;> exact absurd h' (by decide)
    · rcases mem_fieldsSection t _ h with h' | h'
      · exact absurd h' (by decide)
      · exact absurd h' (by decide)
    · rcases mem_enumValuesSection t _ h with h' | h'
      · exact absurd h' (by decide)
      · exact absurd h' (by decide)
    · rcases hi : t.inputFields with _ | xs
      · simp [inputFieldsSection, hi] at h
      · simp [hi]
  · intro h
    rcases hi : t.inputFields with _ | xs
    · rw [hi] at h
      exact absurd h (by decide)
    · simp only [formatTypeDetailsLines, List.mem_append]
      exact Or.inr (by simp [inputFieldsSection, hi])

/-- C2 counterexample: a type with a present but empty `fields` array
still gets a `Fields:` section header (a JS empty array is truthy), so
the output is not the header-less block the claim requires. -/
theorem type_details_empty_section_counterexample :
    emptyFieldsQueryType.fields = some [] ∧
    formatTypeDetails emptyFieldsQueryType = "Type: Query\nKind: OBJECT\n\nFields:" ∧
    formatTypeDetails emptyFieldsQueryType ≠ "Type: Query\nKind: OBJECT" :=
  ⟨rfl, rfl, by decide⟩

/-- C2 (amended): a type-details block emits its sections in the fixed
order Fields, Enum Values, Input Fields, and a section marker is
present if and only if the corresponding collection is present on the
type — including when the collection is present but empty, in which
case the section header appears with no items. -/
theorem type_details_sections_amended (t : GraphQLType) :
    formatTypeDetailsLines t =
      typeHeaderLines t ++ fieldsSection t ++ enumValuesSection t ++ inputFieldsSection t ∧
    ("\nFields:" ∈ formatTypeDetailsLines t ↔ t.fields.isSome = true) ∧
    ("\nEnum Values:" ∈ formatTypeDetailsLines t ↔ t.enumValues.isSome = true) ∧
    ("\nInput Fields:" ∈ formatTypeDetailsLines t ↔ t.inputFields.isSome = true) :=
  ⟨rfl, fields_header_mem t, enum_header_mem t, input_header_mem t⟩

lemma if_length_pos (l : List String) (x : String) :
    (if l.length > 0 then [x] else []) = (if l = [] then [] else [x]) := by
  cases l <;> simp

/-- C3: the type-details operation resolves each requested name
independently: its output is the optional single
`Types not found: n1, n2, ...` line (comma-joined, input order,
present exactly when some name is unresolved) followed by one
`formatTypeDetails` block per found type in input order, all joined by
the `---` separator line; the partition into found and not-found is
stable and never sorted. -/
theorem type_details_partition (r : IntrospectionResponse) (typeNames : List String) :
    get_graphql_type_details (.success r) typeNames =
      joinWith "\n\n---\n\n"
        ((if typeNames.filter
              (fun n => (r.__schema.types.find? (fun t => t.name == some n)).isNone) = []
          then []
          else ["Types not found: " ++ joinWith ", "
            (typeNames.filter
              (fun n => (r.__schema.types.find? (fun t => t.name == some n)).isNone))]) ++
         (typeNames.filterMap (fun n => r.__schema.types.find? (fun t => t.name == some n))).map
           formatTypeDetails) := by
  rw [type_details_success, partitionTypes_eq, if_length_pos]

end GraphQLIntrospection
